import Mathlib

/-!
# Verification of the KPI ingestion pipeline (`src/main.py`)

Shallow embedding of the spreadsheet ingestion and normalization pipeline of
the dashboard backend: `normalizar_valor`, `buscar_columna_valor`,
`detectar_tipo_kpi` (service-segment scan), `procesar_archivo_kpi`,
`unificar_datos_kpi`, `enviar_a_n8n` and `confirm_insertion`.

Modelling conventions:
* Spreadsheet cells are `Cell`: a missing value (`pd.isna`), a string, or a
  number.  Python/numpy floats are modelled as rationals (`ℚ`); `round(x, n)`
  is modelled as decimal rounding on `ℚ` (`roundTo`).  Python's `round` on
  binary floats resolves exact decimal halves by the binary value / half-even;
  such exact ties do not occur in the statements below.
* The spreadsheet reader (`pd.read_excel`) is an external collaborator per the
  design (§6 of the spec): a file is modelled by its parse result
  `Option Sheet` (`none` = the reader raised; the exception is caught by the
  surrounding handler).
* Python exceptions caught inside a function are modelled by the value the
  handler returns; `Option` marks fallible results.
* Python strings are modelled through their character lists (`String.data`);
  `str.replace`, `str.strip`, `str.lower` are given char-level definitions
  below.  `str.strip`/`str.lower` are modelled on their ASCII behaviour,
  which covers every string these functions are applied to.
* Python `float(s)` is modelled on plain decimal notation (optional sign,
  digits with one optional decimal point, optional exponent, surrounding
  whitespace).  Spellings such as "inf"/"nan" and underscore separators are
  not produced by the spreadsheets this system ingests and are not modelled.
-/

/-- A raw spreadsheet cell: missing (NaN/None), a string, or a numeric value. -/
inductive Cell where
  | na : Cell
  | str (s : String) : Cell
  | num (q : ℚ) : Cell
deriving DecidableEq, Repr

/-- `pd.isna` on a cell. -/
def Cell.isNa : Cell → Bool
  | Cell.na => true
  | _ => false

/-- Python `valor == ""` on a cell: only the empty string compares equal. -/
def Cell.isEmptyStr : Cell → Bool
  | Cell.str s => s = ""
  | _ => false

/-- Python `s.replace(c, "")` for a single-character pattern: remove every
occurrence of `c`. -/
def removeAll (c : Char) (l : List Char) : List Char :=
  l.filter (fun x => x ≠ c)

/-- Python `s.replace(c, d)` for single-character pattern and replacement. -/
def replaceAll (c d : Char) (l : List Char) : List Char :=
  l.map (fun x => if x = c then d else x)

/-- Python `str.strip()` (ASCII whitespace): drop whitespace from both ends. -/
def stripChars (l : List Char) : List Char :=
  ((l.dropWhile Char.isWhitespace).reverse.dropWhile Char.isWhitespace).reverse

/-- Python `str.strip()` on a `String`. -/
def pyStrip (s : String) : String := ⟨stripChars s.data⟩

/-- Python `str.lower()` (ASCII). -/
def pyLower (s : String) : String := ⟨s.data.map Char.toLower⟩

/-- Substring occurrence on character lists: models Python `needle in hay`. -/
def containsChars (hay needle : List Char) : Bool :=
  (List.range (hay.length + 1)).any fun i => needle.isPrefixOf (hay.drop i)

/-- Python `needle in hay` for strings. -/
def containsStr (hay needle : String) : Bool :=
  containsChars hay.data needle.data

/-- Take a maximal run of decimal digits off the front of a character list.
Returns (value of the run, number of digits, rest of the list). -/
def takeDigits : List Char → ℕ × ℕ × List Char
  | [] => (0, 0, [])
  | c :: cs =>
    if c.isDigit then
      let r := takeDigits cs
      ((c.toNat - 48) * 10 ^ r.2.1 + r.1, r.2.1 + 1, r.2.2)
    else (0, 0, c :: cs)

/-- Strip one leading `+`/`-` sign; report whether the sign was `-`. -/
def takeSign : List Char → Bool × List Char
  | '+' :: r => (false, r)
  | '-' :: r => (true, r)
  | r => (false, r)

/-- Exponent tail of a float literal: after `e`/`E`, an optional sign and a
nonempty digit run consuming the whole rest.  `none` models `ValueError`. -/
def parseExponent (cs : List Char) : Option ℤ :=
  let sgnRest := takeSign cs
  let d := takeDigits sgnRest.2
  if d.2.1 = 0 ∨ d.2.2 ≠ [] then none
  else some ((if sgnRest.1 then -1 else 1) * (d.1 : ℤ))

/-- The components of a decimal float literal: sign (`true` = negative),
integer-part value, fractional-part value, number of fractional digits, and
exponent.  `none` models `ValueError`. -/
def parseFloatRep (s : String) : Option (Bool × ℕ × ℕ × ℕ × ℤ) :=
  let cs := stripChars s.data
  let sgnRest := takeSign cs
  let intPart := takeDigits sgnRest.2
  let fracPart : ℕ × ℕ × List Char :=
    match intPart.2.2 with
    | '.' :: r => takeDigits r
    | r => (0, 0, r)
  if intPart.2.1 + fracPart.2.1 = 0 then none
  else
    match fracPart.2.2 with
    | [] => some (sgnRest.1, intPart.1, fracPart.1, fracPart.2.1, 0)
    | 'e' :: r => (parseExponent r).map fun e =>
        (sgnRest.1, intPart.1, fracPart.1, fracPart.2.1, e)
    | 'E' :: r => (parseExponent r).map fun e =>
        (sgnRest.1, intPart.1, fracPart.1, fracPart.2.1, e)
    | _ => none

/-- The rational value of a decimal float literal given by its components. -/
def floatRepVal (r : Bool × ℕ × ℕ × ℕ × ℤ) : ℚ :=
  (if r.1 then -1 else 1) * ((r.2.1 : ℚ) + (r.2.2.1 : ℚ) / 10 ^ r.2.2.2.1)
    * (10 : ℚ) ^ r.2.2.2.2

/-- Model of Python `float(s)` on plain decimal notation: surrounding
whitespace, an optional sign, digits with at most one decimal point (at least
one digit overall), and an optional `e`/`E` exponent.  `none` models
`ValueError`. -/
def parseFloat (s : String) : Option ℚ :=
  (parseFloatRep s).map floatRepVal

/-- Python `round(q, d)` modelled on rationals: round `q` to `d` decimal
places.  Exact decimal halves (where Python's float `round` resolves by the
nearest binary value) do not occur in any statement below. -/
def roundTo (d : ℕ) (q : ℚ) : ℚ := (round (q * 10 ^ d) : ℚ) / 10 ^ d

/-- The parsing stage of `normalizar_valor` (src/main.py:157-166): a string is
cleaned (`.replace(" ", "").replace("%", "").replace(",", ".")`) and parsed
with `float`; a number is used as-is.  `none` models the early
`return None` on an empty cleaned string and the caught `ValueError`. -/
def parsedNum : Cell → Option ℚ
  | Cell.na => none
  | Cell.str s =>
    let valor_limpio : List Char :=
      replaceAll ',' '.' (removeAll '%' (removeAll ' ' s.data))
    if valor_limpio = [] then none else parseFloat ⟨valor_limpio⟩
  | Cell.num q => some q

/-- The scale heuristic of `normalizar_valor` (src/main.py:168-178), applied
to the parsed number: above 10 → 0–100 scale; in `[0,1]` → already canonical;
in `(1,10]` → ambiguous, treated as 0–100 scale; anything else (negative)
→ `None`. -/
def clasificarEscala (valor_num : ℚ) : Option ℚ :=
  if 10 < valor_num then some (roundTo 4 (valor_num / 100))
  else if 0 ≤ valor_num ∧ valor_num ≤ 1 then some (roundTo 4 valor_num)
  else if 1 < valor_num ∧ valor_num ≤ 10 then some (roundTo 4 (valor_num / 100))
  else none

/-- `normalizar_valor` (src/main.py:144-181): normalize any percentage format
to a decimal.  Missing/empty input → `none`; otherwise the cell is parsed
(`parsedNum`) and the scale heuristic is applied to the parsed number. -/
def normalizar_valor (valor : Cell) : Option ℚ :=
  if valor.isNa || valor.isEmptyStr then none
  else
    match parsedNum valor with
    | none => none
    | some valor_num => clasificarEscala valor_num

/-- Decimal digits of a natural number (most significant first); `fuel`-driven
structural recursion, `fuel > n` guarantees completion. -/
def natDigitsAux : ℕ → ℕ → List Char
  | 0, _ => []
  | fuel + 1, n =>
    if n < 10 then [Char.ofNat (48 + n)]
    else natDigitsAux fuel (n / 10) ++ [Char.ofNat (48 + n % 10)]

/-- Decimal representation of a natural number. -/
def natChars (n : ℕ) : List Char := natDigitsAux (n + 1) n

/-- Digits after the decimal point of `r / d` (long division), up to `fuel`
digits.  Python prints floats with at most 17 significant digits; 40 covers
every value this pipeline produces. -/
def fracDigits : ℕ → ℕ → ℕ → List Char
  | 0, _, _ => []
  | _, 0, _ => []
  | fuel + 1, r, d =>
    Char.ofNat (48 + r * 10 / d) :: fracDigits fuel (r * 10 % d) d

/-- Python `str()` of a cell, as used on header-row values and executive
names: `str(nan) = "nan"`, a string is itself, a number prints in decimal
notation (an exact model of `repr(float)` is not needed: every statement
below applies `cellStr` to string cells or to integral numeric cells). -/
def cellStr : Cell → String
  | Cell.na => "nan"
  | Cell.str s => s
  | Cell.num q =>
    let sign : List Char := if q < 0 then ['-'] else []
    let n := q.num.natAbs
    let d := q.den
    let fpart := fracDigits 40 (n % d) d
    ⟨sign ++ natChars (n / d) ++ (if fpart = [] then [] else '.' :: fpart)⟩

/-- A parsed spreadsheet: column names and data rows (the 2D tabular view the
external spreadsheet reader produces, §6 of the spec).  Each row is aligned
with `cols` positionally. -/
structure Sheet where
  cols : List String
  rows : List (List Cell)
deriving DecidableEq, Repr

/-- `df.empty`: a DataFrame with no rows or no columns is empty. -/
def Sheet.isEmptyDf (df : Sheet) : Bool := df.cols.isEmpty || df.rows.isEmpty

/-- `row[col]` / `row.get(col, None)`: the cell of `row` under column `name`
(missing → NaN, as pandas fills short data with NaN). -/
def rowGet (cols : List String) (row : List Cell) (name : String) : Cell :=
  match cols.indexOf? name with
  | some i => row.getD i Cell.na
  | none => Cell.na

/-- The `kpi_patterns` table of `buscar_columna_valor` (src/main.py:203-211). -/
def kpi_patterns (kpi_nombre : String) : Option (List String) :=
  if kpi_nombre = "TMO" then some ["%tmo", "tmo"]
  else if kpi_nombre = "TransfEPA" then some ["%transf", "transf epa", "transfepa", "transf."]
  else if kpi_nombre = "Tipificaciones" then some ["%tipif", "tipif", "tipificaciones"]
  else if kpi_nombre = "SatEP" then some ["%satisf", "satisf"]
  else if kpi_nombre = "ResEP" then some ["%resol", "resol"]
  else if kpi_nombre = "SatSNL" then some ["%satisf", "satisf"]
  else if kpi_nombre = "ResSNL" then some ["%resol", "resol"]
  else none

/-- Option 2 of `buscar_columna_valor` (src/main.py:202-222): when the KPI is
registered and a first data row exists, the first column whose first-row value
(as `str(...)`, lowercased) contains one of the KPI's patterns. -/
def buscarPorPatron (columnas : List String) (primera_fila : Option (List Cell))
    (kpi_nombre : String) : Option String :=
  match kpi_patterns kpi_nombre, primera_fila with
  | some patterns, some fila =>
    columnas.find? (fun col =>
      patterns.any (fun pattern =>
        containsStr (pyLower (cellStr (rowGet columnas fila col))) pattern))
  | _, _ => none

/-- `buscar_columna_valor` (src/main.py:184-228): choose the value column.
Priority: a column whose header lowercased and stripped is "total"; else the
first column matched by `buscarPorPatron`; else the second column when there
are at least two; else not found.  (Column names are strings here; the
source's `isinstance(col, str)` guard on option 1 is void for string headers,
and non-string headers — absent under header inference — could never equal
"total".) -/
def buscar_columna_valor (df : Sheet) (kpi_nombre : String) : Option String :=
  match df.cols.find? (fun col => pyStrip (pyLower col) = "total") with
  | some col => some col
  | none =>
    match buscarPorPatron df.cols df.rows.head? kpi_nombre with
    | some col => some col
    | none => if 2 ≤ df.cols.length then df.cols.get? 1 else none

/-- Insert into the executive→value mapping: Python dict assignment
(`resultado[k] = v`) replaces in place or appends. -/
def dinsert (k : String) (v : Option ℚ) :
    List (String × Option ℚ) → List (String × Option ℚ)
  | [] => [(k, v)]
  | (k', v') :: rest => if k' = k then (k, v) :: rest else (k', v') :: dinsert k v rest

/-- Python `m[k]` presence-aware lookup: `some v` when `k` is a key. -/
def dget (m : List (String × Option ℚ)) (k : String) : Option (Option ℚ) :=
  (m.find? (fun kv => kv.1 = k)).map Prod.snd

/-- The row filter of `procesar_archivo_kpi` (src/main.py:333-337): a row is
dropped when the executive cell is missing/empty, or is a string containing
"Filtros aplicados" or equal to "Total" after strip. -/
def filaFiltrada (ejecutivo : Cell) : Bool :=
  (ejecutivo.isNa || ejecutivo.isEmptyStr) ||
  (match ejecutivo with
   | Cell.str s => containsStr s "Filtros aplicados" || pyStrip s = "Total"
   | _ => false)

/-- One step of the row loop of `procesar_archivo_kpi`. -/
def procesarFila (cols : List String) (columna_ejecutivo columna_valor : String)
    (resultado : List (String × Option ℚ)) (fila : List Cell) :
    List (String × Option ℚ) :=
  let ejecutivo := rowGet cols fila columna_ejecutivo
  let valor := rowGet cols fila columna_valor
  if filaFiltrada ejecutivo then resultado
  else
    dinsert (cellStr ejecutivo)
      ((normalizar_valor valor).map fun q => roundTo 2 (q * 100)) resultado

/-- `procesar_archivo_kpi` (src/main.py:298-352): extract the per-executive
value mapping for one KPI from one file.  The input is the spreadsheet
reader's result (`none` = the reader raised; the `except` handler returns the
empty mapping).  The first data row is skipped; filtered rows are dropped;
values are normalized and re-scaled to a 0–100 percentage rounded to 2
decimals (`None` when unparseable). -/
def procesar_archivo_kpi (parse : Option Sheet) (kpi_nombre : String) :
    List (String × Option ℚ) :=
  match parse with
  | none => []
  | some df =>
    if df.isEmptyDf then []
    else
      let columna_ejecutivo := df.cols.headD ""
      match buscar_columna_valor df kpi_nombre with
      | none => []
      | some columna_valor =>
        if columna_valor = "" then []  -- Python `if not columna_valor`
        else
          (df.rows.drop 1).foldl
            (procesarFila df.cols columna_ejecutivo columna_valor) []

/-- The fixed metric list of `unificar_datos_kpi` (src/main.py:373). -/
def lista_kpis : List String :=
  ["TMO", "TransfEPA", "Tipificaciones", "SatEP", "ResEP", "SatSNL", "ResSNL"]

/-- A value in a unified record: the executive name (string), a numeric
percentage, or the explicit absence marker (`None`). -/
inductive RVal where
  | vstr (s : String)
  | vnum (q : ℚ)
  | vnone
deriving DecidableEq, Repr

/-- Lexicographic ≤ on character lists by code point: the comparison Python's
`sorted` uses on `str`.  (Proved below to agree with Lean's `String` order.) -/
def charListLe : List Char → List Char → Bool
  | [], _ => true
  | _ :: _, [] => false
  | a :: as, b :: bs =>
    if a < b then true
    else if b < a then false
    else charListLe as bs

/-- Python's string comparison `a <= b` (code-point lexicographic). -/
def strLe (a b : String) : Bool := charListLe a.data b.data

/-- Insert a string into a sorted list (ascending). -/
def insertSorted (x : String) : List String → List String
  | [] => [x]
  | y :: ys => if strLe x y then x :: y :: ys else y :: insertSorted x ys

/-- Python `sorted` on a collection of strings (ascending code-point order,
the order Lean's `String` linear order also uses). -/
def sortStrings (l : List String) : List String := l.foldr insertSorted []

/-- `datos_por_kpi.get(kpi_nombre, {})`. -/
def kpiLookup (datos_por_kpi : List (String × List (String × Option ℚ)))
    (k : String) : List (String × Option ℚ) :=
  ((datos_por_kpi.find? (fun kv => kv.1 = k)).map Prod.snd).getD []

/-- One unified record (src/main.py:372-379): the `"ejecutivo"` key followed
by the seven metric keys in fixed order; an omitted metric is `None`, else
the value found for this executive (`None` when the executive is missing from
that metric's extract, or was recorded with an unparseable value —
Python's `.get(ejecutivo, None)` collapses both to `None`). -/
def registroDe (datos_por_kpi : List (String × List (String × Option ℚ)))
    (kpis_omitidos : List String) (ejecutivo : String) : List (String × RVal) :=
  ("ejecutivo", RVal.vstr ejecutivo) ::
  lista_kpis.map fun kpi_nombre =>
    (pyLower kpi_nombre,
     if kpi_nombre ∈ kpis_omitidos then RVal.vnone
     else
       match dget (kpiLookup datos_por_kpi kpi_nombre) ejecutivo with
       | some (some q) => RVal.vnum q
       | _ => RVal.vnone)

/-- The `datos_por_kpi` loop of `unificar_datos_kpi` (src/main.py:360-364):
run the extractor on every non-omitted uploaded file. -/
def datosPorKpi (archivos_data : List (String × Option Sheet))
    (kpis_omitidos : List String) :
    List (String × List (String × Option ℚ)) :=
  (archivos_data.filter fun kv => kv.1 ∉ kpis_omitidos).map
    fun kv => (kv.1, procesar_archivo_kpi kv.2 kv.1)

/-- The `todos_ejecutivos` set of `unificar_datos_kpi` (src/main.py:366-368):
the union of executive names across all produced extracts. -/
def todosEjecutivos (archivos_data : List (String × Option Sheet))
    (kpis_omitidos : List String) : List String :=
  (((datosPorKpi archivos_data kpis_omitidos).map
    fun kv => kv.2.map Prod.fst).flatten).dedup

/-- `unificar_datos_kpi` (src/main.py:355-381): run the extractor on every
non-omitted uploaded file, take the union of executive names, and emit one
record per name in ascending order. -/
def unificar_datos_kpi (archivos_data : List (String × Option Sheet))
    (kpis_omitidos : List String) : List (List (String × RVal)) :=
  (sortStrings (todosEjecutivos archivos_data kpis_omitidos)).map
    (registroDe (datosPorKpi archivos_data kpis_omitidos) kpis_omitidos)

/-- Python `str.upper()` (ASCII). -/
def pyUpper (s : String) : String := ⟨s.data.map Char.toUpper⟩

/-- The metric-family scan of `detectar_tipo_kpi` (src/main.py:246-260): the
header-inferred parse's first data row is joined with spaces, uppercased, and
substring-matched in priority order. -/
def detectar_metrica (df : Sheet) : Option String :=
  match df.rows.head? with
  | none => none
  | some primera_fila =>
    let primera_fila_str := pyUpper (String.intercalate " " (primera_fila.map cellStr))
    if containsStr primera_fila_str "SATISF" then some "SATISFACCION"
    else if containsStr primera_fila_str "RESOL" then some "RESOLUCION"
    else if containsStr primera_fila_str "TMO" then some "TMO"
    else if containsStr primera_fila_str "TRANSF" then some "TRANSF EPA"
    else if containsStr primera_fila_str "TIPIF" then some "TIPIFICACIONES"
    else none

/-- The inner cell loop of the service-segment scan of `detectar_tipo_kpi`
(src/main.py:264-271): find the first truthy string cell of the row that
contains "SERVICIO es"; on it, assign EP or SNL (or keep the previous value
when it names neither), and `break` out of the cell loop. -/
def servicioScanRow : List Cell → Option String → Option String
  | [], servicio => servicio
  | Cell.str s :: rest, servicio =>
    if s ≠ "" && containsStr s "SERVICIO es" then
      (if containsStr s "SERVICIO es EP" then some "EP"
       else if containsStr s "SERVICIO es SNL" then some "SNL"
       else servicio)
    else servicioScanRow rest servicio
  | _ :: rest, servicio => servicioScanRow rest servicio

/-- The service-segment scan of `detectar_tipo_kpi` (src/main.py:262-271):
iterate over every row of the raw (headerless) parse; the `break` in the
source exits only the cell loop, so later rows keep being scanned. -/
def detectar_servicio (df_raw : List (List Cell)) : Option String :=
  df_raw.foldl (fun servicio fila => servicioScanRow fila servicio) none

/-- Result of `detectar_tipo_kpi`. -/
structure DetectResult where
  tipo : String
  servicio : String
  metrica : String
deriving DecidableEq, Repr

/-- `detectar_tipo_kpi` (src/main.py:231-295): detect metric family and
service segment.  The input is the pair of parses of the uploaded bytes
(header-inferred and raw); `none` models a parse exception, answered by the
"Error al detectar" sentinel. -/
def detectar_tipo_kpi (parse : Option (Sheet × List (List Cell))) : DetectResult :=
  match parse with
  | none => ⟨"Error al detectar", "N/A", "N/A"⟩
  | some (df, df_raw) =>
    let metrica := detectar_metrica df
    let servicio := detectar_servicio df_raw
    let tipo_completo :=
      match metrica, servicio with
      | some m, some s =>
        if m = "SATISFACCION" then "Satisfacción " ++ s
        else if m = "RESOLUCION" then "Resolución " ++ s
        else if m = "TRANSF EPA" then "Transferencias " ++ s
        else m
      | some m, none => m
      | none, _ => "Desconocido"
    ⟨tipo_completo, servicio.getD "N/A", metrica.getD "N/A"⟩

/-- Days of each month for `strptime("%Y-%m-%d")` validation. -/
def daysInMonth (y m : ℕ) : ℕ :=
  if m = 2 then
    (if y % 4 = 0 ∧ (y % 100 ≠ 0 ∨ y % 400 = 0) then 29 else 28)
  else if m = 4 ∨ m = 6 ∨ m = 9 ∨ m = 11 then 30
  else 31

/-- Model of `datetime.strptime(s, "%Y-%m-%d")`: CPython's `%Y` matches
exactly four digits and `%m`/`%d` one or two (taking each maximal digit run
is equivalent here, since a longer run makes the literal `-` or the string
end fail to match), the whole string must be consumed, and the `datetime`
constructor requires year ≥ 1 (`MINYEAR`), month in 1–12, and a day valid
for that month and year.  `none` models the raised `ValueError`. -/
def parseFechaYMD (s : String) : Option (ℕ × ℕ × ℕ) :=
  let y := takeDigits s.data
  match y.2.2 with
  | '-' :: r1 =>
    let m := takeDigits r1
    (match m.2.2 with
     | '-' :: r2 =>
       let d := takeDigits r2
       if y.2.1 ≠ 4 ∨ m.2.1 = 0 ∨ 2 < m.2.1 ∨ d.2.1 = 0 ∨ 2 < d.2.1
           ∨ d.2.2 ≠ [] then none
       else if 1 ≤ y.1 ∧ 1 ≤ m.1 ∧ m.1 ≤ 12 ∧ 1 ≤ d.1 ∧ d.1 ≤ daysInMonth y.1 m.1 then
         some (y.1, m.1, d.1)
       else none
     | _ => none)
  | _ => none

/-- Outcome of the outbound webhook POST, an external collaborator: either a
response with a status code and body, or a raised exception
(timeout / connection failure). -/
inductive WebhookOutcome where
  | response (status : ℕ) (body : String)
  | failure (msg : String)
deriving DecidableEq, Repr

/-- The dict `enviar_a_n8n` returns: `success` plus `data`/`error`. -/
structure N8nResult where
  success : Bool
  error : Option String
  data : Option String
deriving DecidableEq, Repr

/-- A preview-store session (src/main.py:996-1001).  The admin identity is
opaque here; `digitador = none` models a falsy stored value. -/
structure IngestionSession where
  registros : List (List (String × RVal))
  fecha_registro : String
  kpis_omitidos : List String
  digitador : Option String
deriving DecidableEq, Repr

/-- `enviar_a_n8n` (src/main.py:384-429): build the payload (the date must
parse as `%Y-%m-%d`, else the exception is caught and reported as failure),
POST it, succeed exactly on a 200 status.  The webhook outcome is an input,
being an external collaborator.  The payload contents (records, Spanish
month name, digitador identity) are irrelevant to success and not tracked in
the result. -/
def enviar_a_n8n (registros : List (List (String × RVal)))
    (fecha_registro : String) (digitador : Option String)
    (outcome : WebhookOutcome) : N8nResult :=
  match parseFechaYMD fecha_registro with
  | none => ⟨false, some "strptime: ValueError", none⟩
  | some _ =>
    match outcome with
    | WebhookOutcome.response code body =>
      if code = 200 then ⟨true, none, some body⟩
      else ⟨false, some ("Error en n8n: " ++ ⟨natChars code⟩), none⟩
    | WebhookOutcome.failure msg => ⟨false, some msg, none⟩

/-- `preview_data[sid]` lookup. -/
def storeLookup (store : List (String × IngestionSession)) (sid : String) :
    Option IngestionSession :=
  (store.find? (fun kv => kv.1 = sid)).map Prod.snd

/-- `del preview_data[sid]`. -/
def storeErase (store : List (String × IngestionSession)) (sid : String) :
    List (String × IngestionSession) :=
  store.filter (fun kv => kv.1 ≠ sid)

/-- HTTP response of the confirm endpoint (status code only; the JSON body is
presentation). -/
structure ConfirmResponse where
  status_code : ℕ
deriving DecidableEq, Repr

/-- `confirm_insertion` (src/main.py:1271-1304), after the admin-token check
(an external collaborator that raises before any store access): look up the
session, forward to the webhook, and delete the session only on success.
Returns the response and the store after the request. -/
def confirm_insertion (store : List (String × IngestionSession))
    (session_id : String) (admin_user : String) (outcome : WebhookOutcome) :
    ConfirmResponse × List (String × IngestionSession) :=
  match storeLookup store session_id with
  | none => (⟨404⟩, store)
  | some data =>
    let digitador := data.digitador.getD admin_user
    let result := enviar_a_n8n data.registros data.fecha_registro (some digitador) outcome
    if result.success then (⟨200⟩, storeErase store session_id)
    else (⟨500⟩, store)

/-- The string cleaning exactly as claim C2 words it: strip surrounding
whitespace, strip one trailing `%` sign, replace commas by periods. -/
def limpiarClaim (s : String) : List Char :=
  let t := stripChars s.data
  let t2 := match t.reverse with
            | '%' :: r => r.reverse
            | _ => t
  replaceAll ',' '.' t2

/-- `normalizar_valor` as claim C2 states its contract (same scale
heuristic, but the claimed string cleaning). -/
def normalizar_valor_claim (valor : Cell) : Option ℚ :=
  if valor.isNa || valor.isEmptyStr then none
  else
    let parsed : Option ℚ :=
      match valor with
      | Cell.na => none
      | Cell.str s => parseFloat ⟨limpiarClaim s⟩
      | Cell.num q => some q
    match parsed with
    | none => none
    | some v => clasificarEscala v

/-- The string cleaning as amended: every space character and every `%` sign
is dropped wherever it occurs, and every comma becomes a period, in one pass
over the string. -/
def limpiarAmended (s : String) : List Char :=
  s.data.filterMap fun c =>
    if c = ' ' ∨ c = '%' then none
    else if c = ',' then some '.' else some c

/-- `normalizar_valor` with the amended cleaning. -/
def normalizar_valor_amended (valor : Cell) : Option ℚ :=
  if valor.isNa || valor.isEmptyStr then none
  else
    let parsed : Option ℚ :=
      match valor with
      | Cell.na => none
      | Cell.str s => parseFloat ⟨limpiarAmended s⟩
      | Cell.num q => some q
    match parsed with
    | none => none
    | some v => clasificarEscala v

/-- The per-row assignment of the service scan: the first truthy string cell
of the row containing "SERVICIO es" assigns EP or SNL (`none` when the row
has no such cell, or its first such cell names neither segment). -/
def servicioFila (fila : List Cell) : Option String :=
  match fila.find? (fun c => match c with
    | Cell.str s => s ≠ "" && containsStr s "SERVICIO es"
    | _ => false) with
  | some (Cell.str s) =>
    if containsStr s "SERVICIO es EP" then some "EP"
    else if containsStr s "SERVICIO es SNL" then some "SNL"
    else none
  | _ => none

/-- The service scan as claim C6 words it: scan every cell in row-major
order and stop at the first cell containing "SERVICIO es". -/
def detectar_servicio_claim (df_raw : List (List Cell)) : Option String :=
  match df_raw.flatten.find? (fun c => match c with
    | Cell.str s => s ≠ "" && containsStr s "SERVICIO es"
    | _ => false) with
  | some (Cell.str s) =>
    if containsStr s "SERVICIO es EP" then some "EP"
    else if containsStr s "SERVICIO es SNL" then some "SNL"
    else none
  | _ => none

/-- A test sheet having both a column literally named "Total" and a column
whose first-data-row label matches the TMO pattern. -/
def hojaConTotal : Sheet :=
  ⟨["Ejecutivo", "%TMO", "Total"],
   [[Cell.str "Ejecutivo", Cell.str "%TMO General", Cell.str "Total"],
    [Cell.str "Ana", Cell.str "0,5", Cell.str "0,6"]]⟩

/-- A test sheet with no "Total" column whose second column matches the TMO
pattern in the first data row. -/
def hojaSinTotal : Sheet :=
  ⟨["Ejecutivo", "Columna B"],
   [[Cell.str "Ejecutivo", Cell.str "%TMO General"],
    [Cell.str "Ana", Cell.str "0,5"]]⟩

/-- The executive name of a unified record (its "ejecutivo" entry). -/
def registroEjecutivo (r : List (String × RVal)) : String :=
  match r with
  | ("ejecutivo", RVal.vstr s) :: _ => s
  | _ => ""

/-- File A of the unifier test: TMO with executives Ana and Bob. -/
def hojaTMO_AB : Sheet :=
  ⟨["Ejecutivo", "Total"],
   [[Cell.str "Ejecutivo", Cell.str "Total"],
    [Cell.str "Ana", Cell.str "0,5"],
    [Cell.str "Bob", Cell.str "0,6"]]⟩

/-- File B of the unifier test: SatEP with executives Bob and Cara. -/
def hojaSatEP_BC : Sheet :=
  ⟨["Ejecutivo", "Total"],
   [[Cell.str "Ejecutivo", Cell.str "Total"],
    [Cell.str "Bob", Cell.str "0,7"],
    [Cell.str "Cara", Cell.str "0,8"]]⟩

/-- The eight keys of a unified record. -/
def clavesRegistro : List String :=
  ["ejecutivo", "tmo", "transfepa", "tipificaciones", "satep", "resep",
   "satsnl", "ressnl"]

/-- The uploaded TMO file of the end-to-end scenario: data rows
`("Juan Pérez", "55,20")` and `("Total", "60")` below the skipped label row. -/
def hojaC7_TMO : Sheet :=
  ⟨["Ejecutivo", "Total"],
   [[Cell.str "Ejecutivo", Cell.str "Total"],
    [Cell.str "Juan Pérez", Cell.str "55,20"],
    [Cell.str "Total", Cell.str "60"]]⟩

/-- Unfolding of `parsedNum` on a string cell. -/
theorem parsedNum_str (s : String) :
    parsedNum (Cell.str s) =
      (if replaceAll ',' '.' (removeAll '%' (removeAll ' ' s.data)) = [] then none
       else parseFloat ⟨replaceAll ',' '.' (removeAll '%' (removeAll ' ' s.data))⟩) := rfl

/-- Evaluation helper: compute `parsedNum` on a string cell from the decimal
components of its cleaned form. -/
theorem parsedNum_str_eval (s : String) (r : Bool × ℕ × ℕ × ℕ × ℤ)
    (h1 : replaceAll ',' '.' (removeAll '%' (removeAll ' ' s.data)) ≠ [])
    (h2 : parseFloatRep ⟨replaceAll ',' '.' (removeAll '%' (removeAll ' ' s.data))⟩ = some r) :
    parsedNum (Cell.str s) = some (floatRepVal r) := by
  rw [parsedNum_str, if_neg h1, parseFloat, h2]
  rfl

/-- Evaluation helper: `parsedNum` fails on a string cell whose cleaned form
does not parse. -/
theorem parsedNum_str_fail (s : String)
    (h2 : parseFloatRep ⟨replaceAll ',' '.' (removeAll '%' (removeAll ' ' s.data))⟩ = none) :
    parsedNum (Cell.str s) = none := by
  rw [parsedNum_str]
  split
  · rfl
  · rw [parseFloat, h2]
    rfl

/-- Glue lemma: on a non-missing, non-empty cell the normalizer is the scale
heuristic applied to the parsed number. -/
theorem normalizar_parsed (c : Cell) (v : ℚ) (hna : c.isNa = false)
    (hemp : c.isEmptyStr = false) (hp : parsedNum c = some v) :
    normalizar_valor c = clasificarEscala v := by
  rw [normalizar_valor, hna, hemp]
  simp only [Bool.or_self, Bool.false_eq_true, if_false, hp]

/-- Branch lemma: a parsed value above 10 is divided by 100 and rounded. -/
theorem clasificar_gt10 (v : ℚ) (hv : 10 < v) :
    clasificarEscala v = some (roundTo 4 (v / 100)) := by
  rw [clasificarEscala, if_pos hv]

/-- Branch lemma: a parsed value in `[0, 1]` is rounded as-is. -/
theorem clasificar_in01 (v : ℚ) (hv : 0 ≤ v ∧ v ≤ 1) :
    clasificarEscala v = some (roundTo 4 v) := by
  rw [clasificarEscala, if_neg (show ¬ 10 < v by linarith [hv.2]), if_pos hv]

/-- Branch lemma: a parsed value in `(1, 10]` is divided by 100 and rounded. -/
theorem clasificar_mid (v : ℚ) (hv : 1 < v ∧ v ≤ 10) :
    clasificarEscala v = some (roundTo 4 (v / 100)) := by
  rw [clasificarEscala, if_neg (show ¬ 10 < v by linarith [hv.2]),
    if_neg (show ¬ (0 ≤ v ∧ v ≤ 1) by rintro ⟨h0, h1⟩; linarith [hv.1]),
    if_pos hv]

/-- Branch lemma: a negative parsed value yields `none`. -/
theorem clasificar_neg (v : ℚ) (hv : v < 0) :
    clasificarEscala v = none := by
  rw [clasificarEscala, if_neg (show ¬ 10 < v by linarith), if_neg
      (show ¬ (0 ≤ v ∧ v ≤ 1) by rintro ⟨h0, h1⟩; linarith),
    if_neg (show ¬ (1 < v ∧ v ≤ 10) by rintro ⟨h0, h1⟩; linarith)]

/-- Branch lemma: an unparseable cell yields `none`. -/
theorem normalizar_unparsed (c : Cell) (hp : parsedNum c = none) :
    normalizar_valor c = none := by
  rw [normalizar_valor]
  split
  · rfl
  · rw [hp]

/-- Concrete evaluation: `normalizar_valor("95,50 %") = 0.955`. -/
theorem normalizar_9550pct : normalizar_valor (Cell.str "95,50 %") = some (955/1000) := by
  have h := parsedNum_str_eval "95,50 %" (false, 95, 50, 2, 0) (by decide) (by decide)
  rw [normalizar_parsed (Cell.str "95,50 %") (191/2) (by decide) (by decide)
    (by rw [h]; norm_num [floatRepVal])]
  rw [clasificar_gt10 _ (by norm_num)]
  norm_num [roundTo, round_eq, Int.floor_eq_iff]

/-- Concrete evaluation: `normalizar_valor("0,9550") = 0.955`. -/
theorem normalizar_0_9550 : normalizar_valor (Cell.str "0,9550") = some (955/1000) := by
  have h := parsedNum_str_eval "0,9550" (false, 0, 9550, 4, 0) (by decide) (by decide)
  rw [normalizar_parsed (Cell.str "0,9550") (955/1000) (by decide) (by decide)
    (by rw [h]; norm_num [floatRepVal])]
  rw [clasificar_in01 _ (by norm_num)]
  norm_num [roundTo, round_eq, Int.floor_eq_iff]

/-- Concrete evaluation: `normalizar_valor("abc")` is unparseable. -/
theorem normalizar_abc : normalizar_valor (Cell.str "abc") = none := by
  exact normalizar_unparsed _ (parsedNum_str_fail "abc" (by decide))

/-! ## Rounding bounds -/

/-- Decimal rounding preserves nonnegativity. -/
theorem roundTo_nonneg (d : ℕ) (q : ℚ) (h : 0 ≤ q) : 0 ≤ roundTo d q := by
  have h10 : (0:ℚ) < 10 ^ d := by positivity
  have h1 : (0:ℤ) ≤ round (q * 10 ^ d) := by
    have h2 : round (0:ℚ) ≤ round (q * 10 ^ d) := by
      rw [round_eq, round_eq]
      exact Int.floor_mono (by nlinarith)
    simpa using h2
  rw [roundTo]
  exact div_nonneg (by exact_mod_cast h1) (le_of_lt h10)

/-- Decimal rounding never pushes a value ≤ 1 above 1. -/
theorem roundTo_le_one (d : ℕ) (q : ℚ) (h : q ≤ 1) : roundTo d q ≤ 1 := by
  have h10 : (0:ℚ) < 10 ^ d := by positivity
  have h1 : round (q * 10 ^ d) ≤ (10 ^ d : ℤ) := by
    have h2 : round (q * 10 ^ d) ≤ round (((10 ^ d : ℤ) : ℚ)) := by
      rw [round_eq, round_eq]
      refine Int.floor_mono ?_
      have : q * 10 ^ d ≤ 10 ^ d := by nlinarith
      push_cast
      linarith
    rwa [round_intCast] at h2
  rw [roundTo, div_le_one h10]
  exact_mod_cast h1

/-- A value rounded to `d` decimal places is an integer multiple of `10⁻ᵈ`. -/
theorem roundTo_den (d : ℕ) (q : ℚ) : ∃ k : ℤ, roundTo d q = (k : ℚ) / 10 ^ d :=
  ⟨round (q * 10 ^ d), rfl⟩

/-! ## Claim C1 -/

/-- C1 (counterexample): the claim says no input produces a numeric result
outside [0,1], but the numeric input 200 (a malformed percentage above 100)
is divided by 100 without clamping: the result is 2, which exceeds 1. -/
theorem C1_counterexample :
    normalizar_valor (Cell.num 200) = some 2 ∧ ¬ ((2:ℚ) ≤ 1) := by
  constructor
  · rw [normalizar_parsed (Cell.num 200) 200 rfl rfl rfl,
      clasificar_gt10 200 (by norm_num)]
    norm_num [roundTo, round_eq, Int.floor_eq_iff]
  · norm_num

/-- C1 (amended): every produced value is nonnegative and rounded to 4
decimal places, and lies in [0,1] whenever the parsed number is at most 100;
inputs parsing above 100 are divided by 100 without clamping and land
above 1. -/
theorem C1_amended (c : Cell) (q : ℚ) (hq : normalizar_valor c = some q) :
    (0 ≤ q ∧ ∃ k : ℤ, q = (k : ℚ) / 10 ^ 4) ∧
    (∀ v, parsedNum c = some v → v ≤ 100 → q ≤ 1) := by
  rw [normalizar_valor] at hq
  split at hq
  · exact absurd hq (by simp)
  · cases hp : parsedNum c with
    | none => rw [hp] at hq; exact absurd hq (by simp)
    | some w =>
      rw [hp] at hq
      have hq : clasificarEscala w = some q := hq
      rw [clasificarEscala] at hq
      split_ifs at hq with h1 h2 h3
      · obtain rfl : roundTo 4 (w / 100) = q := Option.some.inj hq
        refine ⟨⟨roundTo_nonneg 4 _ (by linarith), roundTo_den 4 _⟩, ?_⟩
        intro v hv h100
        have hwv : w = v := Option.some.inj hv
        exact roundTo_le_one 4 _ (by rw [hwv]; linarith)
      · obtain rfl : roundTo 4 w = q := Option.some.inj hq
        exact ⟨⟨roundTo_nonneg 4 _ h2.1, roundTo_den 4 _⟩,
          fun v hv _ => roundTo_le_one 4 _ h2.2⟩
      · obtain rfl : roundTo 4 (w / 100) = q := Option.some.inj hq
        refine ⟨⟨roundTo_nonneg 4 _ (by linarith [h3.1]), roundTo_den 4 _⟩, ?_⟩
        intro v hv _
        exact roundTo_le_one 4 _ (by linarith [h3.2])

/-- C1 (witness for the amended theorem) at the input "95,50 %". -/
theorem C1_amended_witness :
    (0 ≤ (955/1000 : ℚ) ∧ ∃ k : ℤ, (955/1000 : ℚ) = (k : ℚ) / 10 ^ 4) ∧
    (∀ v, parsedNum (Cell.str "95,50 %") = some v → v ≤ 100 → (955/1000 : ℚ) ≤ 1) :=
  C1_amended (Cell.str "95,50 %") (955/1000) normalizar_9550pct

/-! ## Claim C2 -/

/-- C2 (counterexample): on `"9%5"` the claimed contract — only a trailing
`%` is stripped — fails to parse and yields Unparseable, but the code removes
every `%` sign anywhere, parses 95, and returns 0.95. -/
theorem C2_counterexample :
    normalizar_valor (Cell.str "9%5") = some (95/100) ∧
    normalizar_valor_claim (Cell.str "9%5") = none := by
  constructor
  · have h := parsedNum_str_eval "9%5" (false, 95, 0, 0, 0) (by decide) (by decide)
    rw [normalizar_parsed (Cell.str "9%5") 95 (by decide) (by decide)
      (by rw [h]; norm_num [floatRepVal])]
    rw [clasificar_gt10 95 (by norm_num)]
    norm_num [roundTo, round_eq, Int.floor_eq_iff]
  · rw [normalizar_valor_claim]
    rw [show parseFloat ⟨limpiarClaim "9%5"⟩ = none from by
      rw [parseFloat, show parseFloatRep ⟨limpiarClaim "9%5"⟩ = none from by decide]
      rfl]
    rfl

/-- One step of `removeAll`. -/
theorem removeAll_cons (c x : Char) (xs : List Char) :
    removeAll c (x :: xs) =
      if x = c then removeAll c xs else x :: removeAll c xs := by
  by_cases h : x = c <;> simp [removeAll, List.filter_cons, h]

/-- One step of `replaceAll`. -/
theorem replaceAll_cons (c d x : Char) (xs : List Char) :
    replaceAll c d (x :: xs) = (if x = c then d else x) :: replaceAll c d xs := by
  simp [replaceAll]

/-- Helper: the three single-character replaces of the source equal the
amended one-pass cleaning. -/
theorem limpiar_source_eq_amended (l : List Char) :
    replaceAll ',' '.' (removeAll '%' (removeAll ' ' l)) =
      l.filterMap fun c =>
        if c = ' ' ∨ c = '%' then none
        else if c = ',' then some '.' else some c := by
  induction l with
  | nil => rfl
  | cons c cs ih =>
    by_cases hsp : c = ' '
    · simp [hsp, removeAll_cons, replaceAll_cons, List.filterMap_cons, ih]
    · by_cases hpc : c = '%'
      · simp [hpc, hsp, removeAll_cons, replaceAll_cons, List.filterMap_cons, ih]
      · by_cases hcm : c = ','
        · simp [hcm, hsp, hpc, removeAll_cons, replaceAll_cons,
            List.filterMap_cons, ih]
        · simp [hsp, hpc, hcm, removeAll_cons, replaceAll_cons,
            List.filterMap_cons, ih]

/-- Helper: the empty cleaned string fails to parse, so the source's early
`return None` on it coincides with parse failure. -/
theorem parseFloat_nil : parseFloat ⟨[]⟩ = none := by
  rw [parseFloat, show parseFloatRep ⟨[]⟩ = none from by decide]
  rfl

/-- C2 (amended): `normalizar_valor` implements the contract with the
cleaning corrected to "all spaces and all `%` signs are removed anywhere,
commas become periods"; in particular the three examples of the claim hold. -/
theorem C2_amended :
    (∀ c : Cell, normalizar_valor c = normalizar_valor_amended c) ∧
    normalizar_valor (Cell.str "95,50 %") = some (955/1000) ∧
    normalizar_valor (Cell.str "0,9550") = some (955/1000) ∧
    normalizar_valor (Cell.str "abc") = none := by
  refine ⟨?_, normalizar_9550pct, normalizar_0_9550, normalizar_abc⟩
  intro c
  cases c with
  | na => rfl
  | num q => rfl
  | str s =>
    rw [normalizar_valor, normalizar_valor_amended]
    by_cases hemp : s = ""
    · subst hemp; rfl
    · have hna : (Cell.str s).isNa = false := rfl
      have hemp' : (Cell.str s).isEmptyStr = false := by
        simp [Cell.isEmptyStr, hemp]
      rw [hna, hemp']
      simp only [Bool.or_self, Bool.false_eq_true, if_false]
      rw [parsedNum_str]
      rw [limpiar_source_eq_amended]
      by_cases hnil :
          (s.data.filterMap fun c =>
            if c = ' ' ∨ c = '%' then none
            else if c = ',' then some '.' else some c) = []
      · rw [if_pos hnil, show limpiarAmended s = [] from hnil, parseFloat_nil]
      · rw [if_neg hnil]
        rfl

/-! ## Claim C6 -/

/-- C6 (counterexample): with an EP marker in the first row and an SNL marker
in the second, the claimed stop-at-first-match semantics answers EP, but the
code's `break` only exits the cell loop, so the later row overwrites and the
code answers SNL. -/
theorem C6_counterexample :
    detectar_servicio [[Cell.str "SERVICIO es EP"], [Cell.str "SERVICIO es SNL"]]
        = some "SNL" ∧
    detectar_servicio_claim [[Cell.str "SERVICIO es EP"], [Cell.str "SERVICIO es SNL"]]
        = some "EP" := by
  constructor <;> decide

/-- Bridge: the inner cell loop with `break` equals the per-row assignment
falling back to the previous accumulator. -/
theorem servicioScanRow_eq (fila : List Cell) (acc : Option String) :
    servicioScanRow fila acc =
      match servicioFila fila with
      | some s => some s
      | none => acc := by
  induction fila with
  | nil => rfl
  | cons c rest ih =>
    cases c with
    | na => simpa [servicioScanRow, servicioFila, List.find?] using ih
    | num q => simpa [servicioScanRow, servicioFila, List.find?] using ih
    | str s =>
      by_cases h : (s ≠ "" && containsStr s "SERVICIO es") = true
      · simp only [servicioScanRow, servicioFila, List.find?, h, if_pos]
        split_ifs <;> rfl
      · simp only [servicioScanRow, servicioFila, List.find?,
          Bool.not_eq_true] at h ⊢
        rw [h]
        simpa [servicioFila] using ih

/-- C6 (amended): within one row the scan does stop at its first
"SERVICIO es" cell, but across rows the loop continues, and the assignment
of a later row overrides the segment chosen earlier; `detectar_tipo_kpi`
reports exactly this scan's outcome. -/
theorem C6_amended :
    (∀ (pre : List (List Cell)) (fila : List Cell),
      detectar_servicio (pre ++ [fila]) =
        match servicioFila fila with
        | some s => some s
        | none => detectar_servicio pre) ∧
    (∀ (fila : List Cell) (acc : Option String),
      servicioScanRow fila acc =
        match servicioFila fila with
        | some s => some s
        | none => acc) ∧
    (∀ (df : Sheet) (df_raw : List (List Cell)),
      (detectar_tipo_kpi (some (df, df_raw))).servicio =
        (detectar_servicio df_raw).getD "N/A") := by
  refine ⟨?_, servicioScanRow_eq, ?_⟩
  · intro pre fila
    rw [detectar_servicio, List.foldl_append]
    exact servicioScanRow_eq fila _
  · intro df df_raw
    rfl

/-! ## Claim C4 -/

/-- C4: `buscar_columna_valor` follows the priority order: (1) the first
column whose header, lowercased and stripped, is exactly "total"; (2) else
the first column whose first-data-row value contains a registered pattern of
the metric (`buscarPorPatron`); (3) else the second column when at least two
exist; (4) else not found — and on a sheet with both a "Total" column and a
pattern-matching column, "Total" wins. -/
theorem C4_column_priority :
    (∀ (df : Sheet) (kpi c : String),
      df.cols.find? (fun col => pyStrip (pyLower col) = "total") = some c →
      buscar_columna_valor df kpi = some c) ∧
    (∀ (df : Sheet) (kpi c : String),
      df.cols.find? (fun col => pyStrip (pyLower col) = "total") = none →
      buscarPorPatron df.cols df.rows.head? kpi = some c →
      buscar_columna_valor df kpi = some c) ∧
    (∀ (df : Sheet) (kpi : String),
      df.cols.find? (fun col => pyStrip (pyLower col) = "total") = none →
      buscarPorPatron df.cols df.rows.head? kpi = none →
      2 ≤ df.cols.length →
      buscar_columna_valor df kpi = df.cols.get? 1) ∧
    (∀ (df : Sheet) (kpi : String),
      df.cols.find? (fun col => pyStrip (pyLower col) = "total") = none →
      buscarPorPatron df.cols df.rows.head? kpi = none →
      df.cols.length < 2 →
      buscar_columna_valor df kpi = none) ∧
    buscar_columna_valor hojaConTotal "TMO" = some "Total" := by
  refine ⟨?_, ?_, ?_, ?_, by decide⟩
  · intro df kpi c h
    simp only [buscar_columna_valor, h]
  · intro df kpi c h1 h2
    simp only [buscar_columna_valor, h1, h2]
  · intro df kpi h1 h2 hlen
    simp only [buscar_columna_valor, h1, h2, if_pos hlen]
  · intro df kpi h1 h2 hlen
    simp only [buscar_columna_valor, h1, h2,
      if_neg (show ¬ 2 ≤ df.cols.length from by omega)]

/-- C4 (witness): the priority rules applied at concrete sheets — rule 1
picks "Total" on `hojaConTotal`, rule 2 picks the pattern column on
`hojaSinTotal`. -/
theorem C4_column_priority_witness :
    buscar_columna_valor hojaConTotal "TMO" = some "Total" ∧
    buscar_columna_valor hojaSinTotal "TMO" = some "Columna B" :=
  ⟨C4_column_priority.1 hojaConTotal "TMO" "Total" (by decide),
   C4_column_priority.2.1 hojaSinTotal "TMO" "Columna B" (by decide) (by decide)⟩

/-! ## Claim C9 -/

/-- C9: the extractor returns the empty mapping — rather than any error — on
a reader exception, on an empty sheet, and when no value column is found
(as a total function it raises nothing; the source's `except` handler is the
`none` input case). -/
theorem C9_extractor_never_fails (kpi : String) (df : Sheet) :
    procesar_archivo_kpi none kpi = [] ∧
    (df.isEmptyDf = true → procesar_archivo_kpi (some df) kpi = []) ∧
    (buscar_columna_valor df kpi = none → procesar_archivo_kpi (some df) kpi = []) := by
  refine ⟨rfl, ?_, ?_⟩
  · intro h
    simp only [procesar_archivo_kpi, h, if_true]
  · intro h
    by_cases he : df.isEmptyDf
    · simp only [procesar_archivo_kpi, he, if_true]
    · simp only [procesar_archivo_kpi, he, Bool.false_eq_true, if_false, h]

/-- C9 (witness): the three degraded cases at concrete inputs — a reader
failure, and the empty sheet (which also has no value column). -/
theorem C9_extractor_never_fails_witness :
    procesar_archivo_kpi none "TMO" = [] ∧
    ((⟨[], []⟩ : Sheet).isEmptyDf = true → procesar_archivo_kpi (some ⟨[], []⟩) "TMO" = []) ∧
    (buscar_columna_valor ⟨[], []⟩ "TMO" = none →
      procesar_archivo_kpi (some ⟨[], []⟩) "TMO" = []) :=
  C9_extractor_never_fails "TMO" ⟨[], []⟩

/-! ## Sorting infrastructure -/

/-- `charListLe` agrees with the lexicographic order relation on char lists. -/
theorem charListLe_iff (x y : List Char) :
    charListLe x y = true ↔ ¬ List.Lex (· < ·) y x := by
  induction x generalizing y with
  | nil =>
    exact ⟨fun _ h => List.Lex.not_nil_right _ _ h, fun _ => rfl⟩
  | cons a as ih =>
    cases y with
    | nil =>
      simp only [charListLe]
      constructor
      · intro h
        exact absurd h (by simp)
      · intro h
        exact absurd List.Lex.nil h
    | cons b bs =>
      rw [charListLe]
      by_cases hab : a < b
      · rw [if_pos hab]
        constructor
        · intro _ h
          cases h with
          | cons h' => exact lt_irrefl a hab
          | rel h' => exact lt_asymm hab h'
        · intro _
          rfl
      · rw [if_neg hab]
        by_cases hba : b < a
        · rw [if_pos hba]
          constructor
          · intro h
            exact absurd h (by simp)
          · intro h
            exact absurd (List.Lex.rel hba) h
        · rw [if_neg hba]
          have hev : a = b := le_antisymm (le_of_not_lt hba) (le_of_not_lt hab)
          subst hev
          rw [ih bs]
          constructor
          · intro h hl
            cases hl with
            | cons h' => exact h h'
            | rel h' => exact lt_irrefl a h'
          · intro h hl
            exact h (List.Lex.cons hl)

/-- `strLe` is Lean's `String` order (and Python's code-point comparison). -/
theorem strLe_iff (a b : String) : strLe a b = true ↔ a ≤ b := by
  rw [strLe, charListLe_iff, String.le_iff_toList_le, ← not_lt]
  exact Iff.rfl

/-- Membership in `insertSorted`. -/
theorem mem_insertSorted (x y : String) (l : List String) :
    y ∈ insertSorted x l ↔ y = x ∨ y ∈ l := by
  induction l with
  | nil => simp [insertSorted]
  | cons z zs ih =>
    rw [insertSorted]
    by_cases h : strLe x z
    · simp [h]
    · simp only [h, Bool.false_eq_true, if_false, List.mem_cons, ih]
      tauto

/-- `insertSorted` preserves sortedness. -/
theorem sorted_insertSorted (x : String) (l : List String)
    (h : l.Sorted (· ≤ ·)) : (insertSorted x l).Sorted (· ≤ ·) := by
  induction l with
  | nil => simp [insertSorted]
  | cons z zs ih =>
    rw [insertSorted]
    rw [List.sorted_cons] at h
    by_cases hxz : strLe x z
    · rw [if_pos hxz]
      rw [List.sorted_cons]
      refine ⟨?_, List.sorted_cons.mpr h⟩
      intro b hb
      rcases List.mem_cons.mp hb with rfl | hb
      · exact (strLe_iff x b).mp hxz
      · exact le_trans ((strLe_iff x z).mp hxz) (h.1 b hb)
    · rw [if_neg hxz]
      rw [List.sorted_cons]
      refine ⟨?_, ih h.2⟩
      intro b hb
      rcases (mem_insertSorted x b zs).mp hb with rfl | hb
      · exact le_of_not_le (fun hc => hxz ((strLe_iff b z).mpr hc))
      · exact h.1 b hb

/-- `insertSorted` preserves distinctness when the element is new. -/
theorem nodup_insertSorted (x : String) (l : List String)
    (hx : x ∉ l) (h : l.Nodup) : (insertSorted x l).Nodup := by
  induction l with
  | nil => simp [insertSorted]
  | cons z zs ih =>
    rw [insertSorted]
    rw [List.nodup_cons] at h
    by_cases hxz : strLe x z
    · rw [if_pos hxz]
      exact List.nodup_cons.mpr ⟨hx, List.nodup_cons.mpr h⟩
    · rw [if_neg hxz]
      refine List.nodup_cons.mpr ⟨?_, ih (fun hc => hx (List.mem_cons_of_mem z hc)) h.2⟩
      intro hc
      rcases (mem_insertSorted x z zs).mp hc with hzx | hc
      · exact hx (hzx ▸ List.mem_cons_self z zs)
      · exact h.1 hc

/-- `sortStrings` contains exactly the input's elements. -/
theorem mem_sortStrings (l : List String) (y : String) :
    y ∈ sortStrings l ↔ y ∈ l := by
  induction l with
  | nil => simp [sortStrings]
  | cons z zs ih =>
    show y ∈ insertSorted z (sortStrings zs) ↔ _
    rw [mem_insertSorted, ih]
    simp

/-- `sortStrings` sorts ascending. -/
theorem sortStrings_sorted (l : List String) :
    (sortStrings l).Sorted (· ≤ ·) := by
  induction l with
  | nil => simp [sortStrings]
  | cons z zs ih => exact sorted_insertSorted z (sortStrings zs) ih

/-- `sortStrings` of a duplicate-free list is duplicate-free. -/
theorem sortStrings_nodup (l : List String) (h : l.Nodup) :
    (sortStrings l).Nodup := by
  induction l with
  | nil => simp [sortStrings]
  | cons z zs ih =>
    rw [List.nodup_cons] at h
    exact nodup_insertSorted z (sortStrings zs)
      (fun hc => h.1 ((mem_sortStrings zs z).mp hc)) (ih h.2)

/-- A sorted duplicate-free list of strings is strictly sorted. -/
theorem sorted_lt_of_sorted_nodup (l : List String)
    (hs : l.Sorted (· ≤ ·)) (hn : l.Nodup) : l.Sorted (· < ·) := by
  have h := List.Pairwise.and hs hn
  exact h.imp fun {a b} hab => lt_of_le_of_ne hab.1 hab.2

/-! ## Claim C3: unifier -/

/-- Unfolding of the extractor on a nonempty sheet with a found value column. -/
theorem procesar_unfold (df : Sheet) (kpi col : String)
    (hne : df.isEmptyDf = false) (hcol : buscar_columna_valor df kpi = some col)
    (hcolne : ¬ col = "") :
    procesar_archivo_kpi (some df) kpi =
      (df.rows.drop 1).foldl (procesarFila df.cols (df.cols.headD "") col) [] := by
  simp only [procesar_archivo_kpi, hne, Bool.false_eq_true, if_false, hcol,
    if_neg hcolne]

/-- A filtered row leaves the accumulated mapping unchanged. -/
theorem procesarFila_skip (cols : List String) (ce cv : String)
    (acc : List (String × Option ℚ)) (fila : List Cell)
    (hf : filaFiltrada (rowGet cols fila ce) = true) :
    procesarFila cols ce cv acc fila = acc := by
  simp only [procesarFila, hf, if_true]

/-- An unfiltered row stores the normalized, re-scaled value under the
executive's name. -/
theorem procesarFila_insert (cols : List String) (ce cv : String)
    (acc : List (String × Option ℚ)) (fila : List Cell) (e v : Cell)
    (he : rowGet cols fila ce = e) (hv : rowGet cols fila cv = v)
    (hf : filaFiltrada e = false) :
    procesarFila cols ce cv acc fila =
      dinsert (cellStr e) ((normalizar_valor v).map fun q => roundTo 2 (q * 100)) acc := by
  simp only [procesarFila, he, hv, hf, Bool.false_eq_true, if_false]

/-- Concrete evaluation: `normalizar_valor("0,5") = 0.5`. -/
theorem normalizar_0coma5 : normalizar_valor (Cell.str "0,5") = some (1/2) := by
  have h := parsedNum_str_eval "0,5" (false, 0, 5, 1, 0) (by decide) (by decide)
  rw [normalizar_parsed (Cell.str "0,5") (1/2) (by decide) (by decide)
    (by rw [h]; norm_num [floatRepVal])]
  rw [clasificar_in01 _ (by norm_num)]
  norm_num [roundTo, round_eq, Int.floor_eq_iff]

/-- Concrete evaluation: `normalizar_valor("0,6") = 0.6`. -/
theorem normalizar_0coma6 : normalizar_valor (Cell.str "0,6") = some (3/5) := by
  have h := parsedNum_str_eval "0,6" (false, 0, 6, 1, 0) (by decide) (by decide)
  rw [normalizar_parsed (Cell.str "0,6") (3/5) (by decide) (by decide)
    (by rw [h]; norm_num [floatRepVal])]
  rw [clasificar_in01 _ (by norm_num)]
  norm_num [roundTo, round_eq, Int.floor_eq_iff]

/-- Concrete evaluation: `normalizar_valor("0,7") = 0.7`. -/
theorem normalizar_0coma7 : normalizar_valor (Cell.str "0,7") = some (7/10) := by
  have h := parsedNum_str_eval "0,7" (false, 0, 7, 1, 0) (by decide) (by decide)
  rw [normalizar_parsed (Cell.str "0,7") (7/10) (by decide) (by decide)
    (by rw [h]; norm_num [floatRepVal])]
  rw [clasificar_in01 _ (by norm_num)]
  norm_num [roundTo, round_eq, Int.floor_eq_iff]

/-- Concrete evaluation: `normalizar_valor("0,8") = 0.8`. -/
theorem normalizar_0coma8 : normalizar_valor (Cell.str "0,8") = some (4/5) := by
  have h := parsedNum_str_eval "0,8" (false, 0, 8, 1, 0) (by decide) (by decide)
  rw [normalizar_parsed (Cell.str "0,8") (4/5) (by decide) (by decide)
    (by rw [h]; norm_num [floatRepVal])]
  rw [clasificar_in01 _ (by norm_num)]
  norm_num [roundTo, round_eq, Int.floor_eq_iff]

/-- Concrete evaluation of the extractor on file A. -/
theorem procesar_hojaTMO_AB :
    procesar_archivo_kpi (some hojaTMO_AB) "TMO" =
      [("Ana", some 50), ("Bob", some 60)] := by
  rw [procesar_unfold hojaTMO_AB "TMO" "Total" (by decide) (by decide) (by decide)]
  rw [show hojaTMO_AB.rows.drop 1 =
      [[Cell.str "Ana", Cell.str "0,5"], [Cell.str "Bob", Cell.str "0,6"]] from by decide]
  rw [List.foldl_cons,
    procesarFila_insert _ _ _ _ _ (Cell.str "Ana") (Cell.str "0,5")
      (by decide) (by decide) (by decide), normalizar_0coma5]
  rw [List.foldl_cons,
    procesarFila_insert _ _ _ _ _ (Cell.str "Bob") (Cell.str "0,6")
      (by decide) (by decide) (by decide), normalizar_0coma6]
  rw [List.foldl_nil]
  rw [show ((some ((1:ℚ)/2)).map fun q => roundTo 2 (q * 100)) = some 50 from by
    simp only [Option.map_some']
    norm_num [roundTo, round_eq, Int.floor_eq_iff]]
  rw [show ((some ((3:ℚ)/5)).map fun q => roundTo 2 (q * 100)) = some 60 from by
    simp only [Option.map_some']
    norm_num [roundTo, round_eq, Int.floor_eq_iff]]
  decide

/-- Concrete evaluation of the extractor on file B. -/
theorem procesar_hojaSatEP_BC :
    procesar_archivo_kpi (some hojaSatEP_BC) "SatEP" =
      [("Bob", some 70), ("Cara", some 80)] := by
  rw [procesar_unfold hojaSatEP_BC "SatEP" "Total" (by decide) (by decide) (by decide)]
  rw [show hojaSatEP_BC.rows.drop 1 =
      [[Cell.str "Bob", Cell.str "0,7"], [Cell.str "Cara", Cell.str "0,8"]] from by decide]
  rw [List.foldl_cons,
    procesarFila_insert _ _ _ _ _ (Cell.str "Bob") (Cell.str "0,7")
      (by decide) (by decide) (by decide), normalizar_0coma7]
  rw [List.foldl_cons,
    procesarFila_insert _ _ _ _ _ (Cell.str "Cara") (Cell.str "0,8")
      (by decide) (by decide) (by decide), normalizar_0coma8]
  rw [List.foldl_nil]
  rw [show ((some ((7:ℚ)/10)).map fun q => roundTo 2 (q * 100)) = some 70 from by
    simp only [Option.map_some']
    norm_num [roundTo, round_eq, Int.floor_eq_iff]]
  rw [show ((some ((4:ℚ)/5)).map fun q => roundTo 2 (q * 100)) = some 80 from by
    simp only [Option.map_some']
    norm_num [roundTo, round_eq, Int.floor_eq_iff]]
  decide

/-- Concrete evaluation of the unifier on files A and B. -/
theorem unificar_AB_eval :
    unificar_datos_kpi [("TMO", some hojaTMO_AB), ("SatEP", some hojaSatEP_BC)] [] =
      [[("ejecutivo", RVal.vstr "Ana"), ("tmo", RVal.vnum 50),
        ("transfepa", RVal.vnone), ("tipificaciones", RVal.vnone),
        ("satep", RVal.vnone), ("resep", RVal.vnone),
        ("satsnl", RVal.vnone), ("ressnl", RVal.vnone)],
       [("ejecutivo", RVal.vstr "Bob"), ("tmo", RVal.vnum 60),
        ("transfepa", RVal.vnone), ("tipificaciones", RVal.vnone),
        ("satep", RVal.vnum 70), ("resep", RVal.vnone),
        ("satsnl", RVal.vnone), ("ressnl", RVal.vnone)],
       [("ejecutivo", RVal.vstr "Cara"), ("tmo", RVal.vnone),
        ("transfepa", RVal.vnone), ("tipificaciones", RVal.vnone),
        ("satep", RVal.vnum 80), ("resep", RVal.vnone),
        ("satsnl", RVal.vnone), ("ressnl", RVal.vnone)]] := by
  have hdk : datosPorKpi [("TMO", some hojaTMO_AB), ("SatEP", some hojaSatEP_BC)] [] =
      [("TMO", [("Ana", some 50), ("Bob", some 60)]),
       ("SatEP", [("Bob", some 70), ("Cara", some 80)])] := by
    rw [datosPorKpi]
    rw [show List.filter
        (fun kv => decide (kv.1 ∉ ([] : List String)))
        [("TMO", some hojaTMO_AB), ("SatEP", some hojaSatEP_BC)] =
        [("TMO", some hojaTMO_AB), ("SatEP", some hojaSatEP_BC)] from by decide]
    rw [List.map_cons, List.map_cons, List.map_nil]
    rw [procesar_hojaTMO_AB, procesar_hojaSatEP_BC]
  rw [unificar_datos_kpi, todosEjecutivos, hdk]
  decide

/-- C3: the unifier emits exactly one record per executive in the union of
all produced extracts, in ascending lexicographic order (strictly sorted, so
no duplicates); each record is `registroDe` of its name, whose seven metric
entries are the absence marker when the metric is omitted or the executive is
missing from that metric's extract and the looked-up value otherwise; and on
file A = TMO {Ana, Bob}, file B = SatEP {Bob, Cara}, the output is exactly
Ana, Bob, Cara in that order with Ana's SatEP absent, Cara's TMO absent and
Bob's both populated. -/
theorem C3_unifier :
    (∀ archivos omitidos,
      ((unificar_datos_kpi archivos omitidos).map registroEjecutivo).Sorted (· < ·)) ∧
    (∀ archivos omitidos,
      (unificar_datos_kpi archivos omitidos).map registroEjecutivo =
        sortStrings (todosEjecutivos archivos omitidos)) ∧
    (∀ archivos omitidos e,
      e ∈ todosEjecutivos archivos omitidos ↔
        ∃ kv ∈ datosPorKpi archivos omitidos, e ∈ kv.2.map Prod.fst) ∧
    (∀ archivos omitidos r, r ∈ unificar_datos_kpi archivos omitidos →
      r = registroDe (datosPorKpi archivos omitidos) omitidos (registroEjecutivo r)) ∧
    (∀ dk omitidos e k, k ∈ lista_kpis → k ∈ omitidos →
      (pyLower k, RVal.vnone) ∈ registroDe dk omitidos e) ∧
    (∀ dk omitidos e k, k ∈ lista_kpis → k ∉ omitidos →
      dget (kpiLookup dk k) e = none →
      (pyLower k, RVal.vnone) ∈ registroDe dk omitidos e) ∧
    (∀ dk omitidos e k q, k ∈ lista_kpis → k ∉ omitidos →
      dget (kpiLookup dk k) e = some (some q) →
      (pyLower k, RVal.vnum q) ∈ registroDe dk omitidos e) ∧
    unificar_datos_kpi [("TMO", some hojaTMO_AB), ("SatEP", some hojaSatEP_BC)] [] =
      [[("ejecutivo", RVal.vstr "Ana"), ("tmo", RVal.vnum 50),
        ("transfepa", RVal.vnone), ("tipificaciones", RVal.vnone),
        ("satep", RVal.vnone), ("resep", RVal.vnone),
        ("satsnl", RVal.vnone), ("ressnl", RVal.vnone)],
       [("ejecutivo", RVal.vstr "Bob"), ("tmo", RVal.vnum 60),
        ("transfepa", RVal.vnone), ("tipificaciones", RVal.vnone),
        ("satep", RVal.vnum 70), ("resep", RVal.vnone),
        ("satsnl", RVal.vnone), ("ressnl", RVal.vnone)],
       [("ejecutivo", RVal.vstr "Cara"), ("tmo", RVal.vnone),
        ("transfepa", RVal.vnone), ("tipificaciones", RVal.vnone),
        ("satep", RVal.vnum 80), ("resep", RVal.vnone),
        ("satsnl", RVal.vnone), ("ressnl", RVal.vnone)]] := by
  have hmapname : ∀ archivos omitidos,
      (unificar_datos_kpi archivos omitidos).map registroEjecutivo =
        sortStrings (todosEjecutivos archivos omitidos) := by
    intro archivos omitidos
    rw [unificar_datos_kpi, List.map_map]
    have : registroEjecutivo ∘
        registroDe (datosPorKpi archivos omitidos) omitidos = id := by
      funext e
      rfl
    rw [this, List.map_id]
  refine ⟨?_, hmapname, ?_, ?_, ?_, ?_, ?_, unificar_AB_eval⟩
  · intro archivos omitidos
    rw [hmapname]
    exact sorted_lt_of_sorted_nodup _ (sortStrings_sorted _)
      (sortStrings_nodup _ (List.nodup_dedup _))
  · intro archivos omitidos e
    rw [todosEjecutivos, List.mem_dedup, List.mem_flatten]
    constructor
    · rintro ⟨s, hs, hes⟩
      rcases List.mem_map.mp hs with ⟨kv, hkv, rfl⟩
      exact ⟨kv, hkv, hes⟩
    · rintro ⟨kv, hkv, hes⟩
      exact ⟨kv.2.map Prod.fst, List.mem_map_of_mem _ hkv, hes⟩
  · intro archivos omitidos r hr
    rw [unificar_datos_kpi] at hr
    rcases List.mem_map.mp hr with ⟨e, _, rfl⟩
    rfl
  · intro dk omitidos e k hk hom
    refine List.mem_cons_of_mem _ (List.mem_map.mpr ⟨k, hk, ?_⟩)
    simp [hom]
  · intro dk omitidos e k hk hom hd
    refine List.mem_cons_of_mem _ (List.mem_map.mpr ⟨k, hk, ?_⟩)
    simp [hom, hd]
  · intro dk omitidos e k q hk hom hd
    refine List.mem_cons_of_mem _ (List.mem_map.mpr ⟨k, hk, ?_⟩)
    simp [hom, hd]

/-- C3 (witness): the record-shape conjunct applied to the "Ana" record of
the two-file example, and the fill rules applied at its lookups. -/
theorem C3_unifier_witness :
    [("ejecutivo", RVal.vstr "Ana"), ("tmo", RVal.vnum 50),
     ("transfepa", RVal.vnone), ("tipificaciones", RVal.vnone),
     ("satep", RVal.vnone), ("resep", RVal.vnone),
     ("satsnl", RVal.vnone), ("ressnl", RVal.vnone)] =
      registroDe
        (datosPorKpi [("TMO", some hojaTMO_AB), ("SatEP", some hojaSatEP_BC)] []) []
        (registroEjecutivo
          [("ejecutivo", RVal.vstr "Ana"), ("tmo", RVal.vnum 50),
           ("transfepa", RVal.vnone), ("tipificaciones", RVal.vnone),
           ("satep", RVal.vnone), ("resep", RVal.vnone),
           ("satsnl", RVal.vnone), ("ressnl", RVal.vnone)]) :=
  C3_unifier.2.2.2.1 [("TMO", some hojaTMO_AB), ("SatEP", some hojaSatEP_BC)] []
    _ (by rw [unificar_AB_eval]; exact List.mem_cons_self _ _)

/-! ## Claim C10: record schema -/

/-- Membership after a dict insertion: the new pair or an old one (with a
different key). -/
theorem mem_dinsert (k : String) (v : Option ℚ)
    (m : List (String × Option ℚ)) (e : String) (vv : Option ℚ)
    (h : (e, vv) ∈ dinsert k v m) : (e = k ∧ vv = v) ∨ (e, vv) ∈ m := by
  induction m with
  | nil =>
    rw [dinsert] at h
    rcases List.mem_singleton.mp h with heq
    exact Or.inl ⟨congrArg Prod.fst heq, congrArg Prod.snd heq⟩
  | cons kv rest ih =>
    obtain ⟨k', v'⟩ := kv
    rw [dinsert] at h
    by_cases hk : k' = k
    · rw [if_pos hk] at h
      rcases List.mem_cons.mp h with heq | hm
      · exact Or.inl ⟨congrArg Prod.fst heq, congrArg Prod.snd heq⟩
      · exact Or.inr (List.mem_cons_of_mem _ hm)
    · rw [if_neg hk] at h
      rcases List.mem_cons.mp h with heq | hm
      · exact Or.inr (List.mem_cons.mpr (Or.inl heq))
      · rcases ih hm with h' | h'
        · exact Or.inl h'
        · exact Or.inr (List.mem_cons_of_mem _ h')

/-- Every value inserted by the extractor's row loop is `None` or a
2-decimal value (an integer multiple of 1/100). -/
theorem foldl_procesarFila_shape (cols : List String) (ce cv : String)
    (rows : List (List Cell)) (acc : List (String × Option ℚ))
    (hacc : ∀ e vv, (e, vv) ∈ acc →
      vv = none ∨ ∃ z : ℤ, vv = some ((z : ℚ) / 100)) :
    ∀ e vv, (e, vv) ∈ rows.foldl (procesarFila cols ce cv) acc →
      vv = none ∨ ∃ z : ℤ, vv = some ((z : ℚ) / 100) := by
  induction rows generalizing acc with
  | nil => exact hacc
  | cons fila rest ih =>
    rw [List.foldl_cons]
    refine ih _ ?_
    intro e vv hm
    rw [procesarFila] at hm
    split at hm
    · exact hacc e vv hm
    · rcases mem_dinsert _ _ _ _ _ hm with ⟨rfl, rfl⟩ | hold
      · cases hn : normalizar_valor (rowGet cols fila cv) with
        | none => exact Or.inl rfl
        | some q =>
          refine Or.inr ?_
          obtain ⟨z, hz⟩ := roundTo_den 2 (q * 100)
          refine ⟨z, ?_⟩
          rw [Option.map_some', hz]
          norm_num
      · exact hacc e vv hold

/-- Every value in an extractor result is `None` or a 2-decimal value. -/
theorem procesar_values (p : Option Sheet) (k : String) (e : String)
    (vv : Option ℚ) (h : (e, vv) ∈ procesar_archivo_kpi p k) :
    vv = none ∨ ∃ z : ℤ, vv = some ((z : ℚ) / 100) := by
  cases p with
  | none => exact absurd h (List.not_mem_nil _)
  | some df =>
    rw [procesar_archivo_kpi] at h
    split at h
    · exact absurd h (List.not_mem_nil _)
    · split at h
      · exact absurd h (List.not_mem_nil _)
      · split at h
        · exact absurd h (List.not_mem_nil _)
        · exact foldl_procesarFila_shape _ _ _ _ _
            (fun _ _ hm => absurd hm (List.not_mem_nil _)) e vv h

/-- A lookup in `datosPorKpi` is the empty mapping or an extractor result for
that metric. -/
theorem kpiLookup_datosPorKpi (archivos : List (String × Option Sheet))
    (omitidos : List String) (k : String) :
    kpiLookup (datosPorKpi archivos omitidos) k = [] ∨
    ∃ p, kpiLookup (datosPorKpi archivos omitidos) k = procesar_archivo_kpi p k := by
  rw [kpiLookup]
  cases hf : (datosPorKpi archivos omitidos).find? (fun kv => kv.1 = k) with
  | none => exact Or.inl rfl
  | some kv =>
    refine Or.inr ?_
    have hk : kv.1 = k := by
      have := List.find?_some hf
      exact of_decide_eq_true this
    have hmem : kv ∈ datosPorKpi archivos omitidos := List.mem_of_find?_eq_some hf
    rw [datosPorKpi] at hmem
    rcases List.mem_map.mp hmem with ⟨kv', _, heq⟩
    refine ⟨kv'.2, ?_⟩
    have h2 : kv.2 = procesar_archivo_kpi kv'.2 kv'.1 := by
      rw [← heq]
    have h1 : kv'.1 = k := by
      have : kv.1 = kv'.1 := by rw [← heq]
      rw [← this, hk]
    rw [Option.map_some', Option.getD_some, h2, h1]

/-- C10: every record the unifier emits has exactly the eight keys
"ejecutivo", "tmo", "transfepa", "tipificaciones", "satep", "resep",
"satsnl", "ressnl" in that order; the head entry is the executive's name; and
every metric entry is the absence marker or a numeric value rounded to 2
decimal places (an integer multiple of 1/100) — whatever files were given or
omitted. -/
theorem C10_record_schema (archivos : List (String × Option Sheet))
    (omitidos : List String) (r : List (String × RVal))
    (hr : r ∈ unificar_datos_kpi archivos omitidos) :
    r.map Prod.fst = clavesRegistro ∧
    (∃ e, r.head? = some ("ejecutivo", RVal.vstr e)) ∧
    (∀ k v, (k, v) ∈ r → k ≠ "ejecutivo" →
      v = RVal.vnone ∨ ∃ z : ℤ, v = RVal.vnum ((z : ℚ) / 100)) := by
  rw [unificar_datos_kpi] at hr
  rcases List.mem_map.mp hr with ⟨e, _, rfl⟩
  refine ⟨?_, ⟨e, rfl⟩, ?_⟩
  · rw [registroDe, List.map_cons, List.map_map]
    rw [show (Prod.fst ∘ fun kpi_nombre =>
        ((pyLower kpi_nombre : String),
         if kpi_nombre ∈ omitidos then RVal.vnone
         else
           match dget (kpiLookup (datosPorKpi archivos omitidos) kpi_nombre) e with
           | some (some q) => RVal.vnum q
           | _ => RVal.vnone)) = fun kpi_nombre => pyLower kpi_nombre from rfl]
    show "ejecutivo" :: List.map (fun kpi_nombre => pyLower kpi_nombre) lista_kpis
        = clavesRegistro
    decide
  · intro k v hkv hke
    rw [registroDe] at hkv
    rcases List.mem_cons.mp hkv with heq | hmem
    · exact absurd (congrArg Prod.fst heq) hke
    · rcases List.mem_map.mp hmem with ⟨kn, hkn, heq⟩
      have hv : v = (if kn ∈ omitidos then RVal.vnone
        else
          match dget (kpiLookup (datosPorKpi archivos omitidos) kn) e with
          | some (some q) => RVal.vnum q
          | _ => RVal.vnone) := (congrArg Prod.snd heq).symm
      rw [hv]
      by_cases hom : kn ∈ omitidos
      · rw [if_pos hom]
        exact Or.inl rfl
      · rw [if_neg hom]
        cases hd : dget (kpiLookup (datosPorKpi archivos omitidos) kn) e with
        | none => exact Or.inl rfl
        | some vv =>
          cases vv with
          | none => exact Or.inl rfl
          | some q =>
            refine Or.inr ?_
            rcases kpiLookup_datosPorKpi archivos omitidos kn with hnil | ⟨p, hp⟩
            · rw [hnil] at hd
              exact absurd hd (by rw [dget]; simp [List.find?])
            · rw [hp] at hd
              rw [dget] at hd
              cases hf : (procesar_archivo_kpi p kn).find? (fun kv => kv.1 = e) with
              | none => rw [hf] at hd; exact absurd hd (by simp)
              | some kv =>
                rw [hf, Option.map_some'] at hd
                have hkv2 : kv.2 = some q := Option.some.inj hd
                have hmem2 : kv ∈ procesar_archivo_kpi p kn :=
                  List.mem_of_find?_eq_some hf
                have := procesar_values p kn kv.1 kv.2 (by
                  rcases kv with ⟨a, b⟩; exact hmem2)
                rcases this with hnone | ⟨z, hz⟩
                · rw [hnone] at hkv2; exact absurd hkv2 (by simp)
                · rw [hkv2] at hz
                  exact ⟨z, by rw [Option.some.inj hz]⟩

/-- C10 (witness): the schema at the "Bob" record of the two-file example. -/
theorem C10_record_schema_witness :
    ([("ejecutivo", RVal.vstr "Bob"), ("tmo", RVal.vnum 60),
      ("transfepa", RVal.vnone), ("tipificaciones", RVal.vnone),
      ("satep", RVal.vnum 70), ("resep", RVal.vnone),
      ("satsnl", RVal.vnone), ("ressnl", RVal.vnone)].map Prod.fst
        = clavesRegistro) ∧
    (∃ e, ([("ejecutivo", RVal.vstr "Bob"), ("tmo", RVal.vnum 60),
      ("transfepa", RVal.vnone), ("tipificaciones", RVal.vnone),
      ("satep", RVal.vnum 70), ("resep", RVal.vnone),
      ("satsnl", RVal.vnone), ("ressnl", RVal.vnone)].head?
        = some ("ejecutivo", RVal.vstr e))) ∧
    (∀ k v, (k, v) ∈ [("ejecutivo", RVal.vstr "Bob"), ("tmo", RVal.vnum 60),
      ("transfepa", RVal.vnone), ("tipificaciones", RVal.vnone),
      ("satep", RVal.vnum 70), ("resep", RVal.vnone),
      ("satsnl", RVal.vnone), ("ressnl", RVal.vnone)] → k ≠ "ejecutivo" →
      v = RVal.vnone ∨ ∃ z : ℤ, v = RVal.vnum ((z : ℚ) / 100)) :=
  C10_record_schema [("TMO", some hojaTMO_AB), ("SatEP", some hojaSatEP_BC)] [] _
    (by rw [unificar_AB_eval]
        exact List.mem_cons_of_mem _ (List.mem_cons_self _ _))

/-! ## Claim C7: end-to-end scenario -/

/-- Concrete evaluation: `normalizar_valor("55,20") = 0.552`. -/
theorem normalizar_55coma20 :
    normalizar_valor (Cell.str "55,20") = some (69/125) := by
  have h := parsedNum_str_eval "55,20" (false, 55, 20, 2, 0) (by decide) (by decide)
  rw [normalizar_parsed (Cell.str "55,20") (276/5) (by decide) (by decide)
    (by rw [h]; norm_num [floatRepVal])]
  rw [clasificar_gt10 _ (by norm_num)]
  norm_num [roundTo, round_eq, Int.floor_eq_iff]

/-- Concrete evaluation of the extractor on the end-to-end file: one entry
for "Juan Pérez" (55.2), the "Total" row contributes nothing. -/
theorem procesar_hojaC7 :
    procesar_archivo_kpi (some hojaC7_TMO) "TMO" =
      [("Juan Pérez", some (276/5))] := by
  rw [procesar_unfold hojaC7_TMO "TMO" "Total" (by decide) (by decide) (by decide)]
  rw [show hojaC7_TMO.rows.drop 1 =
      [[Cell.str "Juan Pérez", Cell.str "55,20"],
       [Cell.str "Total", Cell.str "60"]] from by decide]
  rw [List.foldl_cons,
    procesarFila_insert _ _ _ _ _ (Cell.str "Juan Pérez") (Cell.str "55,20")
      (by decide) (by decide) (by decide), normalizar_55coma20]
  rw [List.foldl_cons, procesarFila_skip _ _ _ _ _ (by decide)]
  rw [List.foldl_nil]
  rw [show ((some ((69:ℚ)/125)).map fun q => roundTo 2 (q * 100)) = some (276/5) from by
    simp only [Option.map_some']
    norm_num [roundTo, round_eq, Int.floor_eq_iff]]
  rfl

/-- C7: uploading only the TMO file with data rows
`[("Juan Pérez", "55,20"), ("Total", "60")]` yields exactly one unified
record, for "Juan Pérez", with tmo = 55.2 and the six other metrics absent;
the "Total" row contributes no record. -/
theorem C7_end_to_end :
    procesar_archivo_kpi (some hojaC7_TMO) "TMO" = [("Juan Pérez", some (276/5))] ∧
    unificar_datos_kpi [("TMO", some hojaC7_TMO)] [] =
      [[("ejecutivo", RVal.vstr "Juan Pérez"), ("tmo", RVal.vnum (276/5)),
        ("transfepa", RVal.vnone), ("tipificaciones", RVal.vnone),
        ("satep", RVal.vnone), ("resep", RVal.vnone),
        ("satsnl", RVal.vnone), ("ressnl", RVal.vnone)]] := by
  refine ⟨procesar_hojaC7, ?_⟩
  have hdk : datosPorKpi [("TMO", some hojaC7_TMO)] [] =
      [("TMO", [("Juan Pérez", some (276/5))])] := by
    rw [datosPorKpi]
    rw [show List.filter (fun kv => decide (kv.1 ∉ ([] : List String)))
        [("TMO", some hojaC7_TMO)] = [("TMO", some hojaC7_TMO)] from by decide]
    rw [List.map_cons, List.map_nil, procesar_hojaC7]
  rw [unificar_datos_kpi, todosEjecutivos, hdk]
  rw [show ((([("TMO", [("Juan Pérez", some ((276:ℚ)/5))])].map
      fun kv => kv.2.map Prod.fst).flatten).dedup) = ["Juan Pérez"] from by
    rw [List.map_cons, List.map_nil]
    rfl]
  rw [show sortStrings ["Juan Pérez"] = ["Juan Pérez"] from rfl]
  rw [List.map_cons, List.map_nil]
  rfl

/-! ## Claim C5: row filter -/

/-- The extractor returns the empty mapping when no value column is found. -/
theorem procesar_col_none (df : Sheet) (kpi : String)
    (h : buscar_columna_valor df kpi = none) :
    procesar_archivo_kpi (some df) kpi = [] := by
  by_cases he : df.isEmptyDf
  · simp only [procesar_archivo_kpi, he, if_true]
  · simp only [procesar_archivo_kpi, he, Bool.false_eq_true, if_false, h]

/-- The extractor returns the empty mapping when the found column name is
falsy (the empty string). -/
theorem procesar_col_empty (df : Sheet) (kpi : String)
    (h : buscar_columna_valor df kpi = some "") :
    procesar_archivo_kpi (some df) kpi = [] := by
  by_cases he : df.isEmptyDf
  · simp only [procesar_archivo_kpi, he, if_true]
  · simp only [procesar_archivo_kpi, he, Bool.false_eq_true, if_false, h,
      if_pos rfl, if_true]

/-- The column locator reads only the column names and the first data row. -/
theorem buscar_head (cols : List String) (r0 : List Cell)
    (rest rest' : List (List Cell)) (kpi : String) :
    buscar_columna_valor ⟨cols, r0 :: rest⟩ kpi =
      buscar_columna_valor ⟨cols, r0 :: rest'⟩ kpi := rfl

/-- C5: the extractor skips the first data row — replacing it by any other
row that leads the locator to the same value column leaves the output
unchanged; a row whose executive cell is filtered contributes nothing — it
can be deleted without changing the output; the filter holds exactly on a
missing/empty cell, one containing "Filtros aplicados", or one equal to
"Total" after strip; and on the concrete sheet whose "Total" row holds the
valid value "60", the output has the single key "Juan Pérez". -/
theorem C5_filtered_rows :
    (∀ (cols : List String) (kpi col : String) (r0 r0' : List Cell)
        (rest : List (List Cell)),
      buscar_columna_valor ⟨cols, r0 :: rest⟩ kpi = some col →
      buscar_columna_valor ⟨cols, r0' :: rest⟩ kpi = some col →
      procesar_archivo_kpi (some ⟨cols, r0 :: rest⟩) kpi =
        procesar_archivo_kpi (some ⟨cols, r0' :: rest⟩) kpi) ∧
    (∀ (cols : List String) (kpi : String) (r0 fila : List Cell)
        (pre post : List (List Cell)),
      filaFiltrada (rowGet cols fila (cols.headD "")) = true →
      procesar_archivo_kpi (some ⟨cols, r0 :: (pre ++ fila :: post)⟩) kpi =
        procesar_archivo_kpi (some ⟨cols, r0 :: (pre ++ post)⟩) kpi) ∧
    (∀ e : Cell, filaFiltrada e = true ↔
      (e = Cell.na ∨ e = Cell.str "" ∨
       ∃ s, e = Cell.str s ∧
         (containsStr s "Filtros aplicados" = true ∨ pyStrip s = "Total"))) ∧
    ((procesar_archivo_kpi (some hojaC7_TMO) "TMO").map Prod.fst
      = ["Juan Pérez"]) := by
  refine ⟨?_, ?_, ?_, by rw [procesar_hojaC7]; rfl⟩
  · intro cols kpi col r0 r0' rest h h'
    by_cases hcol : col = ""
    · subst hcol
      rw [procesar_col_empty _ _ h, procesar_col_empty _ _ h']
    · by_cases hc : cols.isEmpty
      · have h1 : (⟨cols, r0 :: rest⟩ : Sheet).isEmptyDf = true := by
          simp [Sheet.isEmptyDf, hc]
        have h2 : (⟨cols, r0' :: rest⟩ : Sheet).isEmptyDf = true := by
          simp [Sheet.isEmptyDf, hc]
        simp only [procesar_archivo_kpi, h1, h2, if_true]
      · have h1 : (⟨cols, r0 :: rest⟩ : Sheet).isEmptyDf = false := by
          simp [Sheet.isEmptyDf, hc]
        have h2 : (⟨cols, r0' :: rest⟩ : Sheet).isEmptyDf = false := by
          simp [Sheet.isEmptyDf, hc]
        rw [procesar_unfold _ kpi col h1 h hcol,
          procesar_unfold _ kpi col h2 h' hcol]
        rfl
  · intro cols kpi r0 fila pre post hf
    have hb := buscar_head cols r0 (pre ++ fila :: post) (pre ++ post) kpi
    cases hcol : buscar_columna_valor ⟨cols, r0 :: (pre ++ fila :: post)⟩ kpi with
    | none =>
      rw [procesar_col_none _ _ hcol, procesar_col_none _ _ (hb ▸ hcol)]
    | some col =>
      by_cases hce : col = ""
      · subst hce
        rw [procesar_col_empty _ _ hcol, procesar_col_empty _ _ (hb ▸ hcol)]
      · by_cases hc : cols.isEmpty
        · have h1 : (⟨cols, r0 :: (pre ++ fila :: post)⟩ : Sheet).isEmptyDf = true := by
            simp [Sheet.isEmptyDf, hc]
          have h2 : (⟨cols, r0 :: (pre ++ post)⟩ : Sheet).isEmptyDf = true := by
            simp [Sheet.isEmptyDf, hc]
          simp only [procesar_archivo_kpi, h1, h2, if_true]
        · have h1 : (⟨cols, r0 :: (pre ++ fila :: post)⟩ : Sheet).isEmptyDf = false := by
            simp [Sheet.isEmptyDf, hc]
          have h2 : (⟨cols, r0 :: (pre ++ post)⟩ : Sheet).isEmptyDf = false := by
            simp [Sheet.isEmptyDf, hc]
          rw [procesar_unfold _ kpi col h1 hcol hce,
            procesar_unfold _ kpi col h2 (hb ▸ hcol) hce]
          show (pre ++ fila :: post).foldl (procesarFila cols (cols.headD "") col) []
            = (pre ++ post).foldl (procesarFila cols (cols.headD "") col) []
          rw [List.foldl_append, List.foldl_append, List.foldl_cons,
            procesarFila_skip _ _ _ _ _ hf]
  · intro e
    cases e with
    | na => simp [filaFiltrada, Cell.isNa]
    | num q => simp [filaFiltrada, Cell.isNa, Cell.isEmptyStr]
    | str s =>
      simp only [filaFiltrada, Cell.isNa, Cell.isEmptyStr, Bool.false_or]
      constructor
      · intro h
        rcases Bool.or_eq_true_iff.mp h with h1 | h2
        · exact Or.inr (Or.inl (by simpa using of_decide_eq_true h1))
        · rcases Bool.or_eq_true_iff.mp h2 with h3 | h4
          · exact Or.inr (Or.inr ⟨s, rfl, Or.inl h3⟩)
          · exact Or.inr (Or.inr ⟨s, rfl, Or.inr (of_decide_eq_true h4)⟩)
      · rintro (h | h | ⟨s', heq, h⟩)
        · exact absurd h (by simp)
        · have : s = "" := by injection h
          subst this
          simp
        · have : s' = s := by injection heq.symm
          subst this
          rcases h with h | h
          · rw [h]
            simp
          · rw [h]
            simp

/-- C5 (witness): deleting the "Total" row of the end-to-end sheet does not
change the extractor's output. -/
theorem C5_filtered_rows_witness :
    procesar_archivo_kpi
      (some ⟨["Ejecutivo", "Total"],
        [Cell.str "Ejecutivo", Cell.str "Total"] ::
          ([[Cell.str "Juan Pérez", Cell.str "55,20"]] ++
            [Cell.str "Total", Cell.str "60"] :: [])⟩) "TMO" =
    procesar_archivo_kpi
      (some ⟨["Ejecutivo", "Total"],
        [Cell.str "Ejecutivo", Cell.str "Total"] ::
          ([[Cell.str "Juan Pérez", Cell.str "55,20"]] ++ [])⟩) "TMO" :=
  C5_filtered_rows.2.1 ["Ejecutivo", "Total"] "TMO"
    [Cell.str "Ejecutivo", Cell.str "Total"]
    [Cell.str "Total", Cell.str "60"]
    [[Cell.str "Juan Pérez", Cell.str "55,20"]] [] (by decide)

/-! ## Claim C8: confirm and the preview store -/

/-- C8: on a confirm request for an existing session, a webhook exception, a
non-200 response, or a payload-build failure each yield the terminal 500
error with the store unchanged; the confirm succeeds with 200 and deletes
exactly the session — if and only if the payload was built (the date parses)
and the webhook answered 200. -/
theorem C8_confirm_session (store : List (String × IngestionSession))
    (sid admin : String) (outcome : WebhookOutcome) (data : IngestionSession)
    (h : storeLookup store sid = some data) :
    (∀ msg, outcome = WebhookOutcome.failure msg →
      confirm_insertion store sid admin outcome = (⟨500⟩, store)) ∧
    (∀ code body, outcome = WebhookOutcome.response code body → code ≠ 200 →
      confirm_insertion store sid admin outcome = (⟨500⟩, store)) ∧
    (parseFechaYMD data.fecha_registro = none →
      confirm_insertion store sid admin outcome = (⟨500⟩, store)) ∧
    (confirm_insertion store sid admin outcome = (⟨200⟩, storeErase store sid) ↔
      (parseFechaYMD data.fecha_registro ≠ none ∧
        ∃ body, outcome = WebhookOutcome.response 200 body))     := by
  simp only [confirm_insertion, h]
  cases hp : parseFechaYMD data.fecha_registro with
  | none =>
    simp [enviar_a_n8n, hp]
  | some d =>
    cases outcome with
    | failure msg => simp [enviar_a_n8n, hp]
    | response code body =>
      by_cases h200 : code = 200
      · subst h200
        simp [enviar_a_n8n, hp]
      · simp [enviar_a_n8n, hp, h200]

/-- C8 (witness): a successful confirm on a concrete one-session store
returns 200 and deletes the session. -/
theorem C8_confirm_session_witness :
    confirm_insertion [("s1", ⟨[], "2024-05-10", [], none⟩)] "s1" "admin"
      (WebhookOutcome.response 200 "ok") =
    (⟨200⟩, storeErase [("s1", ⟨[], "2024-05-10", [], none⟩)] "s1") :=
  ((C8_confirm_session [("s1", ⟨[], "2024-05-10", [], none⟩)] "s1" "admin"
      (WebhookOutcome.response 200 "ok") ⟨[], "2024-05-10", [], none⟩
      (by decide)).2.2.2).mpr ⟨by decide, "ok", rfl⟩
